import Mathlib

/-!
Shallow embedding of `deepseek_prompt_node.py` (ComfyUI-DeepSeek-API-connector).

The repository is a single ComfyUI node class `DeepSeekPromptConnector` built
from four static string tables, a prompt composer (`_resolve_system_prompt`,
`_build_user_message`), an API client (`_call_deepseek`) and a top-level
orchestration (`generate_prompt`).  Python strings are embedded as Lean
`String`; `str.strip()` as `pyStrip` (an executable trim); Python `dict` literals as
association lists with `List.lookup` (dict keys are unique, so the first
match is the only match); exceptions as an explicit `NodeError` sum carried
in `Except`.  The network (`urllib.request.urlopen`) and the standard-library
JSON parser (`json.loads`) are not code of this repository: they enter the
embedding as explicit oracle parameters (`net : RequestPayload → HttpOutcome`
and `loads : String → Option Json`), so "no HTTP request is issued" is
expressed as independence of the result from the `net` oracle.
-/

/-- Python `str.strip()` with no argument: remove leading and trailing
whitespace.  Implemented structurally over the character list so that the
kernel can evaluate it on concrete strings. -/
def pyStrip (s : String) : String :=
  ⟨((s.data.dropWhile Char.isWhitespace).reverse.dropWhile Char.isWhitespace).reverse⟩

instance exceptDecEq {e a : Type} [DecidableEq e] [DecidableEq a] :
    DecidableEq (Except e a)
  | .error x, .error y => decidable_of_iff (x = y) (by simp)
  | .error _, .ok _ => isFalse (by simp)
  | .ok _, .error _ => isFalse (by simp)
  | .ok x, .ok y => decidable_of_iff (x = y) (by simp)

/-- Error taxonomy of the node, following the spec's names (§7).  The code
raises `ValueError` for invalid input and `RuntimeError` with distinct
message shapes for the transport / remote / parse failures; each raise site
is mapped to one constructor. -/
inductive NodeError where
  | invalidInput (msg : String)
  | transportError (msg : String)
  | remoteError (msg : String)
  | responseParseError (msg : String)
  | unexpectedError (msg : String)
deriving DecidableEq, Repr

/-- The message text carried by an error. -/
def NodeError.message : NodeError → String
  | .invalidInput m => m
  | .transportError m => m
  | .remoteError m => m
  | .responseParseError m => m
  | .unexpectedError m => m

/-- The preset `SYSTEM_PROMPT_PRESETS["Improve prompt (default)"]`. -/
def improvePromptDefaultText : String :=
  "You are an expert prompt engineer for image generation. Rewrite and improve the user's prompt to be clearer, richer in visual details, composition, lighting, style, quality tags, and camera/lens hints when relevant. Return only the final improved prompt text."

/-- The preset `SYSTEM_PROMPT_PRESETS["Create prompt from idea"]`. -/
def createFromIdeaText : String :=
  "You are an expert prompt engineer for image generation. If user provides an idea, produce one strong, production-ready image prompt. If input is empty, invent a compelling prompt yourself. Return only the final prompt text."

/-- The preset `SYSTEM_PROMPT_PRESETS["Photorealistic refinement"]`. -/
def photorealisticText : String :=
  "You improve prompts for photorealistic image generation. Add scene detail, lens/camera cues, realistic lighting, textures, and composition. Avoid fantasy terms unless user asks. Return only the final prompt text."

/-- The preset `SYSTEM_PROMPT_PRESETS["Cinematic style"]`. -/
def cinematicStyleText : String :=
  "You improve prompts in cinematic style. Enhance storytelling, framing, mood, color grading, lighting direction, and shot type. Return only the final prompt text."

/-- The preset `SYSTEM_PROMPT_PRESETS["Anime style"]`. -/
def animeStyleText : String :=
  "You improve prompts for anime-style image generation. Enhance character design, line style, palette, mood, and composition. Return only the final prompt text."

/-- The `SYSTEM_PROMPT_PRESETS` dict, in source order. -/
def SYSTEM_PROMPT_PRESETS : List (String × String) :=
  [("Improve prompt (default)", improvePromptDefaultText),
   ("Create prompt from idea", createFromIdeaText),
   ("Photorealistic refinement", photorealisticText),
   ("Cinematic style", cinematicStyleText),
   ("Anime style", animeStyleText),
   ("Custom", "")]

/-- The hint `TARGET_MODEL_HINTS["sdxl"]`, the fallback entry of that table. -/
def sdxlHintText : String :=
  "Use SDXL-friendly descriptive style with clear subject, style, composition, and quality cues."

/-- The `TARGET_MODEL_HINTS` dict, in source order. -/
def TARGET_MODEL_HINTS : List (String × String) :=
  [("z-image turbo", "Prioritize concise but high-signal wording with strong visual anchors and minimal redundancy."),
   ("nano banana pro", "Use practical, concrete descriptors and stable composition instructions."),
   ("seedream 4.5", "Emphasize imaginative atmosphere, cinematic lighting, and rich scene storytelling."),
   ("flux 2 klein 9b", "Use clear structure with subject, environment, lighting, and style in predictable order."),
   ("qwen image 2512", "Provide balanced detail and explicit visual constraints for reliable output."),
   ("qwen edit image 2511", "Write edit-oriented instructions, preserving base content while specifying precise changes."),
   ("sdxl", sdxlHintText)]

/-- The hint `PROMPT_STYLE_HINTS["Detailed"]`, the fallback entry of that table. -/
def detailedHintText : String := "Provide a detailed, information-rich prompt."

/-- The `PROMPT_STYLE_HINTS` dict, in source order. -/
def PROMPT_STYLE_HINTS : List (String × String) :=
  [("Short", "Keep the output short and compact."),
   ("Detailed", detailedHintText),
   ("Artistic", "Use expressive artistic language and mood-driven descriptors."),
   ("Cinematic", "Use cinematic framing, shot language, and color-grading cues."),
   ("Technical", "Use technical, precise wording focused on controllable visual attributes.")]

/-- The hint `LANGUAGE_HINTS["english"]`, the fallback entry of that table. -/
def englishHintText : String := "Return the final prompt in English only."

/-- The `LANGUAGE_HINTS` dict, in source order. -/
def LANGUAGE_HINTS : List (String × String) :=
  [("english", englishHintText),
   ("chinese", "Return the final prompt in Simplified Chinese only.")]

/-- The `target_model` choices declared in `INPUT_TYPES`. -/
def targetModelChoices : List String :=
  ["z-image turbo", "nano banana pro", "seedream 4.5", "flux 2 klein 9b",
   "qwen image 2512", "qwen edit image 2511", "sdxl"]

/-- The `prompt_style` choices declared in `INPUT_TYPES`. -/
def promptStyleChoices : List String :=
  ["Short", "Detailed", "Artistic", "Cinematic", "Technical"]

/-- The `output_language` choices declared in `INPUT_TYPES`. -/
def outputLanguageChoices : List String := ["english", "chinese"]

/-- The `system_prompt_mode` choices declared in `INPUT_TYPES`:
`list(SYSTEM_PROMPT_PRESETS.keys())`. -/
def systemPromptModeChoices : List String := SYSTEM_PROMPT_PRESETS.map Prod.fst

/-- Embeds `DeepSeekPromptConnector._resolve_system_prompt`.  The Python
`custom_system_prompt or ""` only turns `None` into `""`; with string
arguments it is the identity, so it is dropped here.  The dict fallback
`SYSTEM_PROMPT_PRESETS.get(mode, SYSTEM_PROMPT_PRESETS["Improve prompt (default)"])`
is embedded with `getD improvePromptDefaultText`, using that the literal
subscript `SYSTEM_PROMPT_PRESETS["Improve prompt (default)"]` is exactly
`improvePromptDefaultText`. -/
def resolveSystemPrompt (system_prompt_mode custom_system_prompt : String) :
    Except NodeError String :=
  if system_prompt_mode = "Custom" then
    let custom_value := pyStrip custom_system_prompt
    if custom_value = "" then
      .error (.invalidInput "system_prompt_mode is Custom, but custom_system_prompt is empty.")
    else
      .ok custom_value
  else
    .ok ((SYSTEM_PROMPT_PRESETS.lookup system_prompt_mode).getD improvePromptDefaultText)

/-- The `control_block` f-string of `_build_user_message`.  The grouping of
the `++` chain is chosen for proof convenience; the string value matches the
Python f-string character for character. -/
def controlBlock (output_language target_model prompt_style : String) : String :=
  let language_hint := (LANGUAGE_HINTS.lookup output_language).getD englishHintText
  let target_model_hint := (TARGET_MODEL_HINTS.lookup target_model).getD sdxlHintText
  let style_hint := (PROMPT_STYLE_HINTS.lookup prompt_style).getD detailedHintText
  "Generation requirements:\n" ++
  ("- Target image model: " ++ target_model ++ "\n") ++
  ("- Model adaptation note: " ++ target_model_hint ++ "\n") ++
  ("- Prompt style: " ++ prompt_style ++ ". " ++ style_hint ++ "\n") ++
  ("- Output language: " ++ output_language ++ ". " ++ language_hint ++ "\n") ++
  "- Return only the final prompt text with no explanation."

/-- Embeds `DeepSeekPromptConnector._build_user_message`.  Here `(text or "").strip()`
becomes `pyStrip text` (the `or ""` only handles `None`); Python truthiness of
`clean_text` is `clean_text ≠ ""`. -/
def buildUserMessage (text output_language target_model prompt_style : String) : String :=
  let clean_text := pyStrip text
  let cb := controlBlock output_language target_model prompt_style
  if clean_text = "" then
    "No input prompt was provided. " ++
    ("Generate a complete high-quality image-generation prompt from scratch." ++
     ("\n\n" ++ cb))
  else
    "Improve this prompt for image generation. Keep intent, but increase quality and specificity:\n\n" ++
    (clean_text ++ ("\n\n" ++ cb))

/-- One role/content entry of the outbound `messages` array. -/
structure ChatMessage where
  role : String
  content : String
deriving DecidableEq, Repr

/-- The outbound JSON payload of `_call_deepseek`: the model name, the
message list, the temperature and the max-token budget. -/
structure RequestPayload where
  model : String
  messages : List ChatMessage
  temperature : Float
  max_tokens : Int
deriving Repr

/-- The payload dict literal built at the top of `_call_deepseek`. -/
def buildPayload (model : String) (temperature : Float) (max_tokens : Int)
    (system_prompt user_message : String) : RequestPayload :=
  { model := model
    messages := [{ role := "system", content := system_prompt },
                 { role := "user", content := user_message }]
    temperature := temperature
    max_tokens := max_tokens }

/-- A JSON value, as produced by the standard-library JSON parser. -/
inductive Json where
  | null : Json
  | bool (b : Bool) : Json
  | num (n : Int) : Json
  | str (s : String) : Json
  | arr (elems : List Json) : Json
  | obj (fields : List (String × Json)) : Json

/-- Python subscripting `data[key]` for a string key: succeeds only on a JSON
object containing the key (`json.loads` never produces non-string object
keys, and subscripting any other JSON value with a string raises, which the
caller's blanket `except` turns into the same parse failure). -/
def getField (j : Json) (key : String) : Option Json :=
  match j with
  | .obj fields => fields.lookup key
  | _ => none

/-- Python subscripting `data[i]` for an integer index: succeeds only on a
JSON array long enough (indexing a dict with an integer key, or any scalar,
raises; indexing a string yields a character, after which the next
string-key subscript raises — all converging to the same parse failure). -/
def getIndex (j : Json) (i : Nat) : Option Json :=
  match j with
  | .arr elems => elems.get? i
  | _ => none

/-- The subscript chain `data["choices"][0]["message"]["content"]` followed
by the `isinstance(content, str)` check of `_call_deepseek`. -/
def extractContent (data : Json) : Option String := do
  let choices ← getField data "choices"
  let first ← getIndex choices 0
  let message ← getField first "message"
  let content ← getField message "content"
  match content with
  | .str s => some s
  | _ => none

/-- The response-parsing tail of `_call_deepseek` (the second `try` block).
`loadsResult` is what `json.loads(raw)` returned (`none` = it raised).  Any
failure inside the block — invalid JSON, missing field, non-string content,
or blank content — is caught by the blanket `except` and re-raised as
`RuntimeError(f"Failed to parse DeepSeek response: \x7braw\x7d")`. -/
def parseDeepseekBody (raw : String) (loadsResult : Option Json) :
    Except NodeError String :=
  let failure : Except NodeError String :=
    .error (.responseParseError ("Failed to parse DeepSeek response: " ++ raw))
  match loadsResult with
  | none => failure
  | some data =>
    match extractContent data with
    | none => failure
    | some content =>
      if pyStrip content = "" then failure else .ok (pyStrip content)

/-- Outcome of the blocking `urlopen` call, seen from the first `try` block
of `_call_deepseek`: a body read successfully, an `HTTPError` (with status
code and the body read from `e.fp`, or `""` when `e.fp` is absent), a
`URLError`, or any other exception. -/
inductive HttpOutcome where
  | success (body : String)
  | httpError (code : Nat) (body : String)
  | urlError (reason : String)
  | otherError (msg : String)

/-- Embeds `DeepSeekPromptConnector._call_deepseek`.  The network and `json.loads`
are oracles: `net` maps the outbound payload to the transport outcome and
`loads` is the standard-library JSON parser. -/
def callDeepseek (net : RequestPayload → HttpOutcome) (loads : String → Option Json)
    (model : String) (temperature : Float) (max_tokens : Int)
    (system_prompt user_message : String) : Except NodeError String :=
  let payload := buildPayload model temperature max_tokens system_prompt user_message
  match net payload with
  | .httpError code body =>
      .error (.remoteError ("DeepSeek API HTTP " ++ toString code ++ ": " ++ body))
  | .urlError reason =>
      .error (.transportError ("DeepSeek API connection error: " ++ reason))
  | .otherError msg =>
      .error (.unexpectedError ("Unexpected DeepSeek API error: " ++ msg))
  | .success raw => parseDeepseekBody raw (loads raw)

/-- The pair returned by `generate_prompt` (the `result` tuple; the `ui`
dict repeats `preview`). -/
structure GenerateResult where
  prompt : String
  preview : String
deriving DecidableEq, Repr

/-- Embeds `DeepSeekPromptConnector.generate_prompt`.  The `api_key` is trimmed and
required non-empty; then the composer and the client run in sequence and the
preview string is formatted.  `float(temperature)` and `int(max_tokens)` are
identities at our types.  The `api_key` itself only feeds the Authorization
header inside `net`, which here consumes only the payload. -/
def generatePrompt (net : RequestPayload → HttpOutcome) (loads : String → Option Json)
    (api_key model : String) (temperature : Float) (max_tokens : Int)
    (output_language target_model prompt_style system_prompt_mode
     custom_system_prompt text : String) : Except NodeError GenerateResult :=
  let key := pyStrip api_key
  if key = "" then
    .error (.invalidInput "api_key is required.")
  else do
    let system_prompt ← resolveSystemPrompt system_prompt_mode custom_system_prompt
    let user_message := buildUserMessage text output_language target_model prompt_style
    let prompt ← callDeepseek net loads model temperature max_tokens system_prompt user_message
    let preview := "[model: " ++ target_model ++ "] [style: " ++ prompt_style ++
      "] [lang: " ++ output_language ++ "]\n\n" ++ prompt
    .ok { prompt := prompt, preview := preview }

/-- The string `needle` occurs contiguously inside `hay`. -/
def containsStr (hay needle : String) : Prop :=
  ∃ a b : String, hay = a ++ needle ++ b

theorem strAppend_assoc (a b c : String) : a ++ b ++ c = a ++ (b ++ c) := by
  apply congrArg String.mk
  show (a ++ b).data ++ c.data = a.data ++ (b ++ c).data
  show a.data ++ b.data ++ c.data = a.data ++ (b.data ++ c.data)
  exact List.append_assoc _ _ _

theorem strAppend_empty (s : String) : s ++ "" = s := by
  apply congrArg String.mk
  show s.data ++ ([] : List Char) = s.data
  exact List.append_nil _

theorem strEmpty_append (s : String) : "" ++ s = s := by
  apply congrArg String.mk
  show ([] : List Char) ++ s.data = s.data
  exact List.nil_append _

theorem containsStr_self (n : String) : containsStr n n :=
  ⟨"", "", by rw [strEmpty_append, strAppend_empty]⟩

theorem containsStr_app_left {a n : String} (b : String) (h : containsStr a n) :
    containsStr (a ++ b) n := by
  obtain ⟨x, y, hx⟩ := h
  exact ⟨x, y ++ b, by rw [hx, strAppend_assoc (x ++ n) y b]⟩

theorem containsStr_app_right {b n : String} (a : String) (h : containsStr b n) :
    containsStr (a ++ b) n := by
  obtain ⟨x, y, hx⟩ := h
  exact ⟨a ++ x, y, by rw [hx, ← strAppend_assoc a (x ++ n) y, ← strAppend_assoc a x n]⟩

theorem containsStr_pre (n b : String) : containsStr (n ++ b) n :=
  containsStr_app_left b (containsStr_self n)

set_option maxRecDepth 10000

/-- If a key-value lookup in an association list succeeds, the pair is a
member of the list. -/
theorem lookup_pair_mem {α β : Type} [BEq α] [LawfulBEq α] {l : List (α × β)}
    {a : α} {b : β} (h : l.lookup a = some b) : (a, b) ∈ l := by
  induction l with
  | nil => simp [List.lookup] at h
  | cons p t ih =>
    obtain ⟨k, v⟩ := p
    rw [List.lookup] at h
    cases hb : a == k with
    | true =>
      rw [hb] at h
      obtain rfl : v = b := by simpa using h
      obtain rfl : a = k := by simpa using hb
      exact List.mem_cons_self _ _
    | false =>
      rw [hb] at h
      exact List.mem_cons_of_mem _ (ih h)

/-- Every preset of `SYSTEM_PROMPT_PRESETS` other than the `"Custom"` entry
has a non-empty instruction string. -/
theorem presets_nonempty_of_ne_custom :
    ∀ p ∈ SYSTEM_PROMPT_PRESETS, p.1 ≠ "Custom" → p.2 ≠ "" := by decide

/-- The `"- Target image model: <tm>"` line opens the second component of
the control block. -/
theorem controlBlock_contains_target_model (lang tm style : String) :
    containsStr (controlBlock lang tm style) ("- Target image model: " ++ tm) := by
  simp only [controlBlock]
  apply containsStr_app_left
  apply containsStr_app_left
  apply containsStr_app_left
  apply containsStr_app_left
  apply containsStr_app_right
  exact containsStr_pre _ _

/-- When the target-model lookup misses, the control block carries the
`"sdxl"` fallback hint. -/
theorem controlBlock_fallback_target_hint (lang tm style : String)
    (h : TARGET_MODEL_HINTS.lookup tm = none) :
    containsStr (controlBlock lang tm style) sdxlHintText := by
  simp only [controlBlock, h, Option.getD_none]
  apply containsStr_app_left
  apply containsStr_app_left
  apply containsStr_app_left
  apply containsStr_app_right
  exact ⟨"- Model adaptation note: ", "\n", rfl⟩

/-- When the style lookup misses, the control block carries the
`"Detailed"` fallback hint. -/
theorem controlBlock_fallback_style_hint (lang tm style : String)
    (h : PROMPT_STYLE_HINTS.lookup style = none) :
    containsStr (controlBlock lang tm style) detailedHintText := by
  simp only [controlBlock, h, Option.getD_none]
  apply containsStr_app_left
  apply containsStr_app_left
  apply containsStr_app_right
  exact ⟨"- Prompt style: " ++ style ++ ". ", "\n", rfl⟩

/-- When the language lookup misses, the control block carries the
`"english"` fallback hint. -/
theorem controlBlock_fallback_language_hint (lang tm style : String)
    (h : LANGUAGE_HINTS.lookup lang = none) :
    containsStr (controlBlock lang tm style) englishHintText := by
  simp only [controlBlock, h, Option.getD_none]
  apply containsStr_app_left
  apply containsStr_app_right
  exact ⟨"- Output language: " ++ lang ++ ". ", "\n", rfl⟩

/-- Both branches of `_build_user_message` end with the control block, so
any substring of the control block is a substring of the user message. -/
theorem buildUserMessage_contains_control (n text lang tm style : String)
    (h : containsStr (controlBlock lang tm style) n) :
    containsStr (buildUserMessage text lang tm style) n := by
  simp only [buildUserMessage]
  by_cases he : pyStrip text = ""
  · rw [if_pos he]
    exact containsStr_app_right _ (containsStr_app_right _ (containsStr_app_right _ h))
  · rw [if_neg he]
    exact containsStr_app_right _ (containsStr_app_right _ (containsStr_app_right _ h))

/-- C1: for every `system_prompt_mode` other than `"Custom"`, the composed
system prompt is exactly the preset table's entry for that mode, and an
unrecognized mode name yields the `"Improve prompt (default)"` instruction. -/
theorem c1_preset_system_prompt (mode custom : String) (h : mode ≠ "Custom") :
    (∀ s, SYSTEM_PROMPT_PRESETS.lookup mode = some s →
      resolveSystemPrompt mode custom = .ok s) ∧
    (SYSTEM_PROMPT_PRESETS.lookup mode = none →
      resolveSystemPrompt mode custom = .ok improvePromptDefaultText) := by
  constructor
  · intro s hs
    simp [resolveSystemPrompt, h, hs]
  · intro hs
    simp [resolveSystemPrompt, h, hs]

/-- C1 witness: the `"Anime style"` mode resolves to its canned string, and
the unrecognized mode `"Cartoon"` resolves to the default instruction. -/
theorem c1_preset_system_prompt_witness :
    resolveSystemPrompt "Anime style" "" = .ok animeStyleText ∧
    resolveSystemPrompt "Cartoon" "" = .ok improvePromptDefaultText :=
  ⟨(c1_preset_system_prompt "Anime style" "" (by decide)).1 animeStyleText (by decide),
   (c1_preset_system_prompt "Cartoon" "" (by decide)).2 (by decide)⟩

/-- C2: in `"Custom"` mode an empty or whitespace-only override fails with
`InvalidInput`, and a non-blank override resolves to its trimmed text. -/
theorem c2_custom_system_prompt (custom : String) :
    (pyStrip custom = "" →
      resolveSystemPrompt "Custom" custom =
        .error (.invalidInput "system_prompt_mode is Custom, but custom_system_prompt is empty.")) ∧
    (pyStrip custom ≠ "" →
      resolveSystemPrompt "Custom" custom = .ok (pyStrip custom)) := by
  constructor
  · intro h
    simp [resolveSystemPrompt, h]
  · intro h
    simp [resolveSystemPrompt, h]

/-- C2 witness: a whitespace-only override fails; `" my prompt "` resolves
to the trimmed `"my prompt"`. -/
theorem c2_custom_system_prompt_witness :
    resolveSystemPrompt "Custom" "   " =
      .error (.invalidInput "system_prompt_mode is Custom, but custom_system_prompt is empty.") ∧
    resolveSystemPrompt "Custom" " my prompt " = .ok (pyStrip " my prompt ") ∧
    pyStrip " my prompt " = "my prompt" :=
  ⟨(c2_custom_system_prompt "   ").1 (by decide),
   (c2_custom_system_prompt " my prompt ").2 (by decide),
   by decide⟩

/-- C3: with a blank `api_key` the top-level operation fails with
`InvalidInput`, and the result is this same error for every network oracle
`net` and every JSON oracle `loads` — the outcome does not depend on the
network at all, so no HTTP request is issued before the failure. -/
theorem c3_blank_api_key_fails_before_network
    (net : RequestPayload → HttpOutcome) (loads : String → Option Json)
    (api_key model : String) (temperature : Float) (max_tokens : Int)
    (output_language target_model prompt_style system_prompt_mode
     custom_system_prompt text : String)
    (h : pyStrip api_key = "") :
    generatePrompt net loads api_key model temperature max_tokens output_language
      target_model prompt_style system_prompt_mode custom_system_prompt text =
      .error (.invalidInput "api_key is required.") := by
  simp [generatePrompt, h]

/-- C3 witness: a whitespace-only key fails with `InvalidInput` even when
the network oracle would answer. -/
theorem c3_blank_api_key_fails_before_network_witness :
    generatePrompt (fun _ => HttpOutcome.httpError 500 "boom") (fun _ => none)
      "   " "deepseek-chat" 1.0 512 "english" "sdxl" "Detailed"
      "Improve prompt (default)" "" "hi" =
      .error (.invalidInput "api_key is required.") :=
  c3_blank_api_key_fails_before_network _ _ _ _ _ _ _ _ _ _ _ _ (by decide)

/-- C4: the user message trims the input text and branches on emptiness.
Non-blank text appears verbatim (trimmed) in the message together with the
`"- Target image model: <target>"` line of the requirements block; blank
text produces the from-scratch instruction and a message identical to the
one composed from the empty string, hence containing no user-supplied
text. -/
theorem c4_user_message_branches (text lang tm style : String) :
    (pyStrip text ≠ "" →
      containsStr (buildUserMessage text lang tm style) (pyStrip text) ∧
      containsStr (buildUserMessage text lang tm style) ("- Target image model: " ++ tm)) ∧
    (pyStrip text = "" →
      containsStr (buildUserMessage text lang tm style)
        "Generate a complete high-quality image-generation prompt from scratch." ∧
      buildUserMessage text lang tm style = buildUserMessage "" lang tm style) := by
  constructor
  · intro h
    refine ⟨?_, buildUserMessage_contains_control _ _ _ _ _
      (controlBlock_contains_target_model lang tm style)⟩
    simp only [buildUserMessage]
    rw [if_neg h]
    exact containsStr_app_right _ (containsStr_pre _ _)
  · intro h
    have h0 : pyStrip "" = "" := rfl
    constructor
    · simp only [buildUserMessage]
      rw [if_pos h]
      exact containsStr_app_right _ (containsStr_pre _ _)
    · simp only [buildUserMessage]
      rw [if_pos h, if_pos h0]

/-- C4 witness: `"a cat"` with target model `"sdxl"` keeps the user text and
carries the `"- Target image model: sdxl"` line; whitespace-only input
yields the from-scratch message, equal to the one for empty input. -/
theorem c4_user_message_branches_witness :
    containsStr (buildUserMessage "a cat" "english" "sdxl" "Detailed") (pyStrip "a cat") ∧
    pyStrip "a cat" = "a cat" ∧
    containsStr (buildUserMessage "a cat" "english" "sdxl" "Detailed")
      ("- Target image model: " ++ "sdxl") ∧
    containsStr (buildUserMessage "  " "english" "sdxl" "Detailed")
      "Generate a complete high-quality image-generation prompt from scratch." ∧
    buildUserMessage "  " "english" "sdxl" "Detailed" =
      buildUserMessage "" "english" "sdxl" "Detailed" :=
  ⟨((c4_user_message_branches "a cat" "english" "sdxl" "Detailed").1 (by decide)).1,
   by decide,
   ((c4_user_message_branches "a cat" "english" "sdxl" "Detailed").1 (by decide)).2,
   ((c4_user_message_branches "  " "english" "sdxl" "Detailed").2 (by decide)).1,
   ((c4_user_message_branches "  " "english" "sdxl" "Detailed").2 (by decide)).2⟩

/-- C5: response parsing.  `loadsResult` is what the standard-library JSON
parser returned on the body (`none` = invalid JSON).  The client fails if
and only if the body is invalid JSON, the `choices[0].message.content` path
is absent or not a string (`extractContent` returns `none` exactly in those
cases), or the content is blank; every failure is the `ResponseParseError`
whose message carries the raw body, and on success the result is exactly the
trimmed content. -/
theorem c5_response_parsing (raw : String) (loadsResult : Option Json) :
    ((∃ e, parseDeepseekBody raw loadsResult = .error e) ↔
      (loadsResult = none ∨
       (∃ j, loadsResult = some j ∧ extractContent j = none) ∨
       (∃ j s, loadsResult = some j ∧ extractContent j = some s ∧ pyStrip s = ""))) ∧
    (∀ j s, loadsResult = some j → extractContent j = some s → pyStrip s ≠ "" →
      parseDeepseekBody raw loadsResult = .ok (pyStrip s)) ∧
    (∀ e, parseDeepseekBody raw loadsResult = .error e →
      e = .responseParseError ("Failed to parse DeepSeek response: " ++ raw) ∧
      containsStr e.message raw) := by
  refine ⟨?_, ?_, ?_⟩
  · cases loadsResult with
    | none => simp [parseDeepseekBody]
    | some j =>
      cases hE : extractContent j with
      | none => simp [parseDeepseekBody, hE]
      | some s =>
        by_cases hs : pyStrip s = ""
        · simp [parseDeepseekBody, hE, hs]
        · simp [parseDeepseekBody, hE, hs]
  · intro j s hj hE hs
    subst hj
    simp [parseDeepseekBody, hE, hs]
  · intro e he
    have hmsg : e = .responseParseError ("Failed to parse DeepSeek response: " ++ raw) := by
      cases loadsResult with
      | none =>
        simp [parseDeepseekBody] at he
        exact he.symm
      | some j =>
        cases hE : extractContent j with
        | none =>
          simp [parseDeepseekBody, hE] at he
          exact he.symm
        | some s =>
          by_cases hs : pyStrip s = ""
          · simp [parseDeepseekBody, hE, hs] at he
            exact he.symm
          · simp [parseDeepseekBody, hE, hs] at he
    refine ⟨hmsg, ?_⟩
    rw [hmsg]
    exact ⟨"Failed to parse DeepSeek response: ", "", (strAppend_empty _).symm⟩

/-- C5 witness: the mock body whose JSON value is
`\x7b"choices":[\x7b"message":\x7b"content":"X"\x7d\x7d]\x7d` yields exactly `"X"`, and an
invalid-JSON body fails with a `ResponseParseError` carrying the body. -/
theorem c5_response_parsing_witness :
    parseDeepseekBody "\x7b\"choices\":[\x7b\"message\":\x7b\"content\":\"X\"\x7d\x7d]\x7d"
      (some (Json.obj [("choices",
        Json.arr [Json.obj [("message", Json.obj [("content", Json.str "X")])]])])) =
      .ok (pyStrip "X") ∧
    pyStrip "X" = "X" ∧
    parseDeepseekBody "oops" none =
      .error (.responseParseError ("Failed to parse DeepSeek response: " ++ "oops")) ∧
    containsStr (NodeError.message
      (.responseParseError ("Failed to parse DeepSeek response: " ++ "oops"))) "oops" := by
  have h1 := (c5_response_parsing
      "\x7b\"choices\":[\x7b\"message\":\x7b\"content\":\"X\"\x7d\x7d]\x7d"
      (some (Json.obj [("choices",
        Json.arr [Json.obj [("message", Json.obj [("content", Json.str "X")])]])]))).2.1
      (Json.obj [("choices",
        Json.arr [Json.obj [("message", Json.obj [("content", Json.str "X")])]])])
      "X" rfl (by rfl) (by decide)
  have h2 := (c5_response_parsing "oops" none).2.2
    (.responseParseError ("Failed to parse DeepSeek response: " ++ "oops")) (by rfl)
  exact ⟨h1, by decide, rfl, h2.2⟩

/-- C6: when the transport reports a non-success HTTP status, the client
fails with a `RemoteError` whose message is
`"DeepSeek API HTTP <code>: <body>"`, containing the status code's decimal
rendering and the response body verbatim. -/
theorem c6_remote_error (net : RequestPayload → HttpOutcome) (loads : String → Option Json)
    (model : String) (temperature : Float) (max_tokens : Int)
    (system_prompt user_message : String) (code : Nat) (body : String)
    (h : net (buildPayload model temperature max_tokens system_prompt user_message) =
      .httpError code body) :
    callDeepseek net loads model temperature max_tokens system_prompt user_message =
      .error (.remoteError ("DeepSeek API HTTP " ++ toString code ++ ": " ++ body)) ∧
    containsStr ("DeepSeek API HTTP " ++ toString code ++ ": " ++ body) (toString code) ∧
    containsStr ("DeepSeek API HTTP " ++ toString code ++ ": " ++ body) body := by
  refine ⟨?_, ?_, ?_⟩
  · simp [callDeepseek, h]
  · exact ⟨"DeepSeek API HTTP ", ": " ++ body, strAppend_assoc _ ": " body⟩
  · exact ⟨"DeepSeek API HTTP " ++ toString code ++ ": ", "", (strAppend_empty _).symm⟩

/-- C6 witness: a 400 response with body `"bad request"` produces a
`RemoteError` whose message contains `"400"` and `"bad request"`. -/
theorem c6_remote_error_witness :
    callDeepseek (fun _ => HttpOutcome.httpError 400 "bad request") (fun _ => none)
      "deepseek-chat" 1.0 512 "sys" "usr" =
      .error (.remoteError ("DeepSeek API HTTP " ++ toString 400 ++ ": " ++ "bad request")) ∧
    containsStr ("DeepSeek API HTTP " ++ toString 400 ++ ": " ++ "bad request") (toString 400) ∧
    containsStr ("DeepSeek API HTTP " ++ toString 400 ++ ": " ++ "bad request") "bad request" ∧
    toString 400 = "400" := by
  have h := c6_remote_error (fun _ => HttpOutcome.httpError 400 "bad request") (fun _ => none)
    "deepseek-chat" 1.0 512 "sys" "usr" 400 "bad request" rfl
  exact ⟨h.1, h.2.1, h.2.2, by decide⟩

/-- C7: user-message composition is total by construction (it is a plain
function into `String` — no branch of `_build_user_message` raises), and
for every configuration value outside the enumerated choices the hint
lookups fall back to the `"english"`, `"sdxl"` and `"Detailed"` hints,
which then appear in the composed message. -/
theorem c7_user_message_total_with_fallbacks (text lang tm style : String) :
    (LANGUAGE_HINTS.lookup lang = none →
      containsStr (buildUserMessage text lang tm style) englishHintText) ∧
    (TARGET_MODEL_HINTS.lookup tm = none →
      containsStr (buildUserMessage text lang tm style) sdxlHintText) ∧
    (PROMPT_STYLE_HINTS.lookup style = none →
      containsStr (buildUserMessage text lang tm style) detailedHintText) := by
  refine ⟨fun h => ?_, fun h => ?_, fun h => ?_⟩
  · exact buildUserMessage_contains_control _ _ _ _ _
      (controlBlock_fallback_language_hint _ _ _ h)
  · exact buildUserMessage_contains_control _ _ _ _ _
      (controlBlock_fallback_target_hint _ _ _ h)
  · exact buildUserMessage_contains_control _ _ _ _ _
      (controlBlock_fallback_style_hint _ _ _ h)

/-- C7 witness: with the out-of-enumeration values `"german"`, `"dalle"`
and `"Fancy"`, the message carries all three fallback hints. -/
theorem c7_user_message_total_with_fallbacks_witness :
    containsStr (buildUserMessage "x" "german" "dalle" "Fancy") englishHintText ∧
    containsStr (buildUserMessage "x" "german" "dalle" "Fancy") sdxlHintText ∧
    containsStr (buildUserMessage "x" "german" "dalle" "Fancy") detailedHintText :=
  ⟨(c7_user_message_total_with_fallbacks "x" "german" "dalle" "Fancy").1 (by decide),
   (c7_user_message_total_with_fallbacks "x" "german" "dalle" "Fancy").2.1 (by decide),
   (c7_user_message_total_with_fallbacks "x" "german" "dalle" "Fancy").2.2 (by decide)⟩

/-- C8: every enumerated choice declared in `INPUT_TYPES` is a key of its
static hint table (seven target models, five styles, two languages, and
every system-prompt mode), and each table's designated fallback key
(`"sdxl"`, `"Detailed"`, `"english"`, `"Improve prompt (default)"`) is
present with the fallback string the code uses. -/
theorem c8_choices_covered :
    targetModelChoices.length = 7 ∧
    promptStyleChoices.length = 5 ∧
    outputLanguageChoices.length = 2 ∧
    (targetModelChoices.all fun k => (TARGET_MODEL_HINTS.lookup k).isSome) = true ∧
    (promptStyleChoices.all fun k => (PROMPT_STYLE_HINTS.lookup k).isSome) = true ∧
    (outputLanguageChoices.all fun k => (LANGUAGE_HINTS.lookup k).isSome) = true ∧
    (systemPromptModeChoices.all fun k => (SYSTEM_PROMPT_PRESETS.lookup k).isSome) = true ∧
    TARGET_MODEL_HINTS.lookup "sdxl" = some sdxlHintText ∧
    PROMPT_STYLE_HINTS.lookup "Detailed" = some detailedHintText ∧
    LANGUAGE_HINTS.lookup "english" = some englishHintText ∧
    SYSTEM_PROMPT_PRESETS.lookup "Improve prompt (default)" = some improvePromptDefaultText := by
  decide

/-- C9: whenever system-prompt resolution returns, the returned string is
non-empty: the custom branch guards against blank overrides, and the lookup
path can never surface the empty `"Custom"` table entry because that mode is
intercepted first and every other preset is non-empty. -/
theorem c9_resolved_system_prompt_nonempty (mode custom s : String)
    (h : resolveSystemPrompt mode custom = .ok s) : s ≠ "" := by
  by_cases hm : mode = "Custom"
  · subst hm
    by_cases hc : pyStrip custom = ""
    · simp [resolveSystemPrompt, hc] at h
    · simp [resolveSystemPrompt, hc] at h
      exact h ▸ hc
  · simp [resolveSystemPrompt, hm] at h
    cases hl : SYSTEM_PROMPT_PRESETS.lookup mode with
    | none =>
      rw [hl] at h
      simp at h
      subst h
      decide
    | some v =>
      rw [hl] at h
      simp at h
      subst h
      exact presets_nonempty_of_ne_custom (mode, v) (lookup_pair_mem hl) hm

/-- C9 witness: the `"Cinematic style"` preset resolves successfully and the
resulting system prompt is non-empty. -/
theorem c9_resolved_system_prompt_nonempty_witness : cinematicStyleText ≠ "" :=
  c9_resolved_system_prompt_nonempty "Cinematic style" "" cinematicStyleText (by decide)

/-- C10: the outbound payload always carries exactly the two messages, in
order system then user, with the composed prompts verbatim, alongside the
model name, temperature and max_tokens. -/
theorem c10_payload_shape (model : String) (temperature : Float) (max_tokens : Int)
    (system_prompt user_message : String) :
    (buildPayload model temperature max_tokens system_prompt user_message).messages =
      [{ role := "system", content := system_prompt },
       { role := "user", content := user_message }] ∧
    (buildPayload model temperature max_tokens system_prompt user_message).messages.length = 2 ∧
    (buildPayload model temperature max_tokens system_prompt user_message).model = model ∧
    (buildPayload model temperature max_tokens system_prompt user_message).temperature =
      temperature ∧
    (buildPayload model temperature max_tokens system_prompt user_message).max_tokens =
      max_tokens :=
  ⟨rfl, rfl, rfl, rfl, rfl⟩
